import Mathlib

/-!
Verification of `src/wayland_clipboard.rs` from the `cli-clipboard` crate.

The context talks to an external transport (the `wl_clipboard_rs` crate).
We embed each clipboard operation as a pure function of the transport's
responses; every operation additionally returns the list of transport
calls it issued, so that call-gating properties (which selection a call
targets, whether a call happens at all) are statable.
-/

deriving instance DecidableEq for Except

namespace CliClipboard

/-- Error kinds of the transport's paste operation (`wl_clipboard_rs::paste::Error`),
distinguished exactly as far as the source code distinguishes them: the three
empty-like variants it matches by name, and everything else. -/
inductive PasteError where
  | NoSeats
  | ClipboardEmpty
  | NoMimeType
  | Other (code : Nat)
  deriving DecidableEq

/-- The three empty-like paste failures, as enumerated in the source's two
match arms (`NoSeats | ClipboardEmpty | NoMimeType`). -/
def PasteError.emptyLike : PasteError → Bool
  | .NoSeats => true
  | .ClipboardEmpty => true
  | .NoMimeType => true
  | .Other _ => false

/-- An `std::io::Error` raised while draining a paste reader: either the bytes
were not valid UTF-8 (`read_to_string` reports `InvalidData`) or the read
itself failed. -/
inductive IoError where
  | invalidData
  | other (code : Nat)
  deriving DecidableEq

/-- A byte stream handed back by a successful paste request, modelled by the
outcome of draining and UTF-8-decoding it (the draining is performed by the
external `Read` implementation, so only its outcome is visible to this code). -/
abbrev StreamResult : Type := Except IoError String

/-- Embedding of the helper `read_into_string`: drain the reader into a string,
propagating the io error if draining fails. -/
def read_into_string (reader : StreamResult) : Except IoError String := reader

/-- Error kinds of the transport's primary-selection capability check
(`wl_clipboard_rs::utils::PrimarySelectionCheckError`), distinguished exactly
as far as the source distinguishes them. -/
inductive PrimarySelectionCheckError where
  | NoSeats
  | OtherCheck (code : Nat)
  deriving DecidableEq

/-- Error kinds of the transport's copy and clear operations. -/
inductive CopyError where
  | err (code : Nat)
  deriving DecidableEq

/-- The boxed error type surfaced to callers of the context (`crate::Result`),
tagged by which transport operation it originated from. -/
inductive ClipError where
  | paste (e : PasteError)
  | io (e : IoError)
  | check (e : PrimarySelectionCheckError)
  | copyErr (e : CopyError)
  deriving DecidableEq

/-- Clipboard selection targeted by a transport call
(`paste::ClipboardType` / `copy::ClipboardType`). -/
inductive ClipboardType where
  | Primary
  | Regular
  | Both
  deriving DecidableEq

/-- Seat argument of a paste request (`paste::Seat`). -/
inductive PasteSeat where
  | Unspecified
  | Specific (name : String)
  deriving DecidableEq

/-- Seat argument of a copy or clear request (`copy::Seat`). -/
inductive CopySeat where
  | All
  | Specific (name : String)
  deriving DecidableEq

/-- MIME type argument of a transport call; the source only ever uses `Text`. -/
inductive MimeType where
  | Text
  deriving DecidableEq

/-- The `ServeRequests` option of a copy request. -/
inductive ServeRequests where
  | Unlimited
  | Only (n : Nat)
  deriving DecidableEq

/-- Record of one paste request issued to the transport. -/
structure PasteCall where
  clipboard : ClipboardType
  seat : PasteSeat
  mime : MimeType
  deriving DecidableEq

/-- The primary-selection paste request exactly as the source issues it. -/
def primaryPasteCall : PasteCall :=
  ⟨ClipboardType.Primary, PasteSeat.Unspecified, MimeType.Text⟩

/-- The regular-selection paste request exactly as the source issues it. -/
def regularPasteCall : PasteCall :=
  ⟨ClipboardType.Regular, PasteSeat.Unspecified, MimeType.Text⟩

/-- The context's only state: the capability flag fixed at construction. -/
structure WaylandClipboardContext where
  supports_primary_selection : Bool
  deriving DecidableEq

/-- Responses the transport would give to the (at most one) primary-selection
paste request and the (at most one) regular-selection paste request of a
single `get_contents` call. -/
structure PasteTransport where
  primary : Except PasteError StreamResult
  regular : Except PasteError StreamResult
  deriving DecidableEq

/-- Embedding of `WaylandClipboardContext::new`: the capability flag is the
check's boolean on success, `false` when the check reports `NoSeats`, and any
other check failure aborts construction. -/
def new (check : Except PrimarySelectionCheckError Bool) :
    Except ClipError WaylandClipboardContext :=
  match check with
  | .ok v => .ok ⟨v⟩
  | .error .NoSeats => .ok ⟨false⟩
  | .error e => .error (.check e)

/-- Embedding of the second half of `WaylandClipboardContext::get_contents`
(lines 105-117): the regular-selection read, with the three empty-like paste
failures converted to an empty-string success. -/
def get_contents_regular (t : PasteTransport) : Except ClipError String :=
  match t.regular with
  | .ok reader =>
      match read_into_string reader with
      | .ok contents => .ok contents
      | .error e => .error (.io e)
  | .error .NoSeats => .ok ""
  | .error .ClipboardEmpty => .ok ""
  | .error .NoMimeType => .ok ""
  | .error e => .error (.paste e)

/-- Embedding of `WaylandClipboardContext::get_contents`: when the capability
flag is set, a primary-selection paste is attempted first; a successful
primary read is decoded and returned, the three empty-like primary failures
return `Ok("")` immediately, and any other primary failure falls through to
the regular-selection read. Without the flag only the regular read runs.
The second component lists the paste requests issued, in order. -/
def get_contents (ctx : WaylandClipboardContext) (t : PasteTransport) :
    Except ClipError String × List PasteCall :=
  if ctx.supports_primary_selection then
    match t.primary with
    | .ok reader =>
        (match read_into_string reader with
         | .ok contents => .ok contents
         | .error e => .error (.io e), [primaryPasteCall])
    | .error .NoSeats => (.ok "", [primaryPasteCall])
    | .error .ClipboardEmpty => (.ok "", [primaryPasteCall])
    | .error .NoMimeType => (.ok "", [primaryPasteCall])
    | .error _ =>
        (get_contents_regular t, [primaryPasteCall, regularPasteCall])
  else
    (get_contents_regular t, [regularPasteCall])

/-- The options record built by `set_contents` before calling `copy`
(`copy::Options`). -/
structure Options where
  clipboard : ClipboardType
  seat : CopySeat
  trim_newline : Bool
  foreground : Bool
  serve_requests : ServeRequests
  deriving DecidableEq

/-- Record of one publish (`copy`) call issued to the transport: the options in
force, the payload bytes (a UTF-8 string, since `copy::Source::Bytes` receives
`data.into_bytes()` of the caller's string), and the MIME type. -/
structure CopyCall where
  options : Options
  payload : String
  mime : MimeType
  deriving DecidableEq

/-- The one publish call `set_contents` issues: options built exactly as in the
source (all seats, newline trimming off, non-foreground, unlimited serve
requests, `Both` or `Regular` according to the capability flag), the caller's
bytes, text MIME type. -/
def set_contents_call (ctx : WaylandClipboardContext) (data : String) : CopyCall :=
  { options :=
      { clipboard :=
          if ctx.supports_primary_selection then
            ClipboardType.Both
          else
            ClipboardType.Regular
        seat := CopySeat.All
        trim_newline := false
        foreground := false
        serve_requests := ServeRequests.Unlimited }
    payload := data
    mime := MimeType.Text }

/-- Embedding of `WaylandClipboardContext::set_contents`: issue the single
publish call above and propagate the transport's outcome. `copyRes` is the
transport's response to that call. -/
def set_contents (ctx : WaylandClipboardContext) (data : String)
    (copyRes : Except CopyError Unit) :
    Except ClipError Unit × List CopyCall :=
  (copyRes.mapError ClipError.copyErr, [set_contents_call ctx data])

/-- Record of one clear call issued to the transport. -/
structure ClearCall where
  clipboard : ClipboardType
  seat : CopySeat
  deriving DecidableEq

/-- Embedding of `WaylandClipboardContext::clear`: one transport clear call at
all-seat scope, targeting `Both` or `Regular` according to the capability
flag, propagating the transport's outcome. `clearRes` is the transport's
response to that call. -/
def clear (ctx : WaylandClipboardContext) (clearRes : Except CopyError Unit) :
    Except ClipError Unit × List ClearCall :=
  if ctx.supports_primary_selection then
    (clearRes.mapError ClipError.copyErr, [⟨ClipboardType.Both, CopySeat.All⟩])
  else
    (clearRes.mapError ClipError.copyErr, [⟨ClipboardType.Regular, CopySeat.All⟩])

/-- Modelled from the spec: the Transport collaborator's clipboard buffer
state (section 6: the windowing session holds a regular and a primary
selection buffer, each either empty or holding bytes of one prior publish). -/
structure ClipState where
  regular : Option String
  primary : Option String
  deriving DecidableEq

/-- Modelled from the spec: the transport's automatic trailing-newline
trimming, applied by a publish only when `trim_newline` is on (the source
always turns it off). -/
def trimTrailingNewline (s : String) : String :=
  if s.endsWith "\n" then s.dropRight 1 else s

/-- Modelled from the spec: effect of one publish call on the transport's
buffers — the payload (trimmed only if `trim_newline` is on) is stored in
every targeted selection, leaving the other selection untouched. -/
def applyCopy (c : CopyCall) (st : ClipState) : ClipState :=
  let payload :=
    if c.options.trim_newline then trimTrailingNewline c.payload else c.payload
  match c.options.clipboard with
  | .Regular => { st with regular := some payload }
  | .Primary => { st with primary := some payload }
  | .Both => { regular := some payload, primary := some payload }

/-- Modelled from the spec: a paste request against one buffer succeeds with
the stored bytes, or reports `ClipboardEmpty` when the buffer is empty. -/
def pasteOf : Option String → Except PasteError StreamResult
  | some s => .ok (.ok s)
  | none => .error .ClipboardEmpty

/-- Modelled from the spec: the paste responses a well-behaved transport in
state `st` gives, with no external actor interfering. -/
def transportOf (st : ClipState) : PasteTransport :=
  ⟨pasteOf st.primary, pasteOf st.regular⟩

/-- Sources of errors the read path can surface: an io error from a stream the
transport actually handed over, or the regular paste request's own error. A
bare primary paste-transport error is not a possible source. -/
def errSource (t : PasteTransport) : ClipError → Prop
  | .io e => t.primary = .ok (.error e) ∨ t.regular = .ok (.error e)
  | .paste e => t.regular = .error e
  | .check _ => False
  | .copyErr _ => False

lemma gc_false (t : PasteTransport) :
    get_contents ⟨false⟩ t = (get_contents_regular t, [regularPasteCall]) := rfl

lemma gc_true_primary_ok_ok (t : PasteTransport) (s : String)
    (hp : t.primary = .ok (.ok s)) :
    get_contents ⟨true⟩ t = (.ok s, [primaryPasteCall]) := by
  unfold get_contents
  rw [hp]
  rfl

lemma gc_true_primary_ok_err (t : PasteTransport) (e : IoError)
    (hp : t.primary = .ok (.error e)) :
    get_contents ⟨true⟩ t = (.error (.io e), [primaryPasteCall]) := by
  unfold get_contents
  rw [hp]
  rfl

lemma gc_true_primary_emptyLike (t : PasteTransport) (e : PasteError)
    (hp : t.primary = .error e) (he : e.emptyLike = true) :
    get_contents ⟨true⟩ t = (.ok "", [primaryPasteCall]) := by
  unfold get_contents
  rw [hp]
  cases e with
  | NoSeats => rfl
  | ClipboardEmpty => rfl
  | NoMimeType => rfl
  | Other c => exact absurd he (by simp [PasteError.emptyLike])

lemma gc_true_primary_other (t : PasteTransport) (c : Nat)
    (hp : t.primary = .error (.Other c)) :
    get_contents ⟨true⟩ t = (get_contents_regular t, [primaryPasteCall, regularPasteCall]) := by
  unfold get_contents
  rw [hp]
  rfl

lemma gcr_ok_ok (t : PasteTransport) (s : String) (hr : t.regular = .ok (.ok s)) :
    get_contents_regular t = .ok s := by
  unfold get_contents_regular
  rw [hr]
  rfl

lemma gcr_ok_err (t : PasteTransport) (e : IoError) (hr : t.regular = .ok (.error e)) :
    get_contents_regular t = .error (.io e) := by
  unfold get_contents_regular
  rw [hr]
  rfl

lemma gcr_emptyLike (t : PasteTransport) (e : PasteError)
    (hr : t.regular = .error e) (he : e.emptyLike = true) :
    get_contents_regular t = .ok "" := by
  unfold get_contents_regular
  rw [hr]
  cases e with
  | NoSeats => rfl
  | ClipboardEmpty => rfl
  | NoMimeType => rfl
  | Other c => exact absurd he (by simp [PasteError.emptyLike])

lemma gcr_other (t : PasteTransport) (c : Nat) (hr : t.regular = .error (.Other c)) :
    get_contents_regular t = .error (.paste (.Other c)) := by
  unfold get_contents_regular
  rw [hr]

lemma regular_error_source (t : PasteTransport) (err : ClipError)
    (h : get_contents_regular t = .error err) : errSource t err := by
  cases hr : t.regular with
  | ok reader =>
    cases reader with
    | ok s => rw [gcr_ok_ok t s hr] at h; exact absurd h (by simp)
    | error e =>
      rw [gcr_ok_err t e hr] at h
      cases h
      exact Or.inr hr
  | error e =>
    cases e with
    | NoSeats => rw [gcr_emptyLike t _ hr rfl] at h; exact absurd h (by simp)
    | ClipboardEmpty => rw [gcr_emptyLike t _ hr rfl] at h; exact absurd h (by simp)
    | NoMimeType => rw [gcr_emptyLike t _ hr rfl] at h; exact absurd h (by simp)
    | Other c =>
      rw [gcr_other t c hr] at h
      cases h
      exact hr

/-- Claim C1, counterexample: with primary-selection support enabled, a
primary read failing with `ClipboardEmpty` while the regular clipboard holds
`"payload"` makes `get_contents` return the empty string after issuing only
the primary paste request — it neither attempts a regular-selection read nor
returns the regular payload, contrary to the claim. -/
theorem C1_counterexample :
    get_contents ⟨true⟩ ⟨.error .ClipboardEmpty, .ok (.ok "payload")⟩ =
      (.ok "", [primaryPasteCall]) := rfl

/-- Claim C1, amended: with primary-selection support enabled, a primary read
failing with any of the three empty-like conditions (`NoSeats`,
`ClipboardEmpty`, `NoMimeType`) makes `get_contents` return the empty string
immediately as a success, without attempting a regular-selection read. -/
theorem C1_amended (ctx : WaylandClipboardContext) (t : PasteTransport)
    (e : PasteError) (hs : ctx.supports_primary_selection = true)
    (he : e.emptyLike = true) (hp : t.primary = .error e) :
    get_contents ctx t = (.ok "", [primaryPasteCall]) := by
  obtain ⟨b⟩ := ctx
  cases hs
  exact gc_true_primary_emptyLike t e hp he

/-- Claim C1, witness for the amended theorem at a concrete input. -/
theorem C1_amended_witness :
    get_contents ⟨true⟩ ⟨.error .NoSeats, .ok (.ok "x")⟩ =
      (.ok "", [primaryPasteCall]) :=
  C1_amended ⟨true⟩ ⟨.error .NoSeats, .ok (.ok "x")⟩ .NoSeats rfl rfl rfl

/-- Claim C2, counterexample: with primary-selection support enabled, a
primary read failing with a non-empty-like error (`Other 7`) does not
propagate that failure — `get_contents` goes on to issue the regular paste
request and returns the regular payload as a success, contrary to the claim. -/
theorem C2_counterexample :
    get_contents ⟨true⟩ ⟨.error (.Other 7), .ok (.ok "reg")⟩ =
      (.ok "reg", [primaryPasteCall, regularPasteCall]) := rfl

/-- Claim C2, amended: with primary-selection support enabled, a primary read
failing with any error kind other than the three empty-like conditions is
silently discarded: `get_contents` then attempts the regular-selection read
and its overall outcome is exactly the regular read's outcome. -/
theorem C2_amended (ctx : WaylandClipboardContext) (t : PasteTransport)
    (e : PasteError) (hs : ctx.supports_primary_selection = true)
    (he : e.emptyLike = false) (hp : t.primary = .error e) :
    get_contents ctx t = (get_contents_regular t, [primaryPasteCall, regularPasteCall]) := by
  obtain ⟨b⟩ := ctx
  cases hs
  cases e with
  | NoSeats => exact absurd he (by simp [PasteError.emptyLike])
  | ClipboardEmpty => exact absurd he (by simp [PasteError.emptyLike])
  | NoMimeType => exact absurd he (by simp [PasteError.emptyLike])
  | Other c => exact gc_true_primary_other t c hp

/-- Claim C2, witness for the amended theorem at a concrete input. -/
theorem C2_amended_witness :
    get_contents ⟨true⟩ ⟨.error (.Other 3), .ok (.ok "y")⟩ =
      (get_contents_regular ⟨.error (.Other 3), .ok (.ok "y")⟩,
        [primaryPasteCall, regularPasteCall]) :=
  C2_amended ⟨true⟩ ⟨.error (.Other 3), .ok (.ok "y")⟩ (.Other 3) rfl rfl rfl

/-- Claim C3: writing a string via `set_contents` and reading it back with
`get_contents` on the same context, over a well-behaved transport whose
buffers nobody else touches in between, returns exactly the written string
(no newline trimming, whatever the prior buffer state and the capability
flag). -/
theorem C3_round_trip (ctx : WaylandClipboardContext) (S : String) (st : ClipState) :
    (get_contents ctx (transportOf (applyCopy (set_contents_call ctx S) st))).1 =
      .ok S := by
  obtain ⟨b⟩ := ctx
  cases b <;> rfl

/-- Claim C4: construction succeeds with the check's boolean on a successful
capability check, succeeds with the flag false when the check reports
`NoSeats`, and fails exactly on every other check error. -/
theorem C4_construction :
    (∀ b : Bool, new (.ok b) = .ok ⟨b⟩) ∧
    new (.error .NoSeats) = .ok ⟨false⟩ ∧
    ∀ c : Nat, new (.error (.OtherCheck c)) = .error (.check (.OtherCheck c)) :=
  ⟨fun _ => rfl, rfl, fun _ => rfl⟩

/-- Claim C5: with the capability flag false, `get_contents` issues only the
regular paste request (never a primary one), and `set_contents` issues its
single publish call targeting only the regular clipboard. -/
theorem C5_capability_gating (ctx : WaylandClipboardContext) (t : PasteTransport)
    (data : String) (copyRes : Except CopyError Unit)
    (h : ctx.supports_primary_selection = false) :
    (get_contents ctx t).2 = [regularPasteCall] ∧
    (set_contents ctx data copyRes).2 =
      [⟨⟨ClipboardType.Regular, CopySeat.All, false, false, ServeRequests.Unlimited⟩,
        data, MimeType.Text⟩] := by
  obtain ⟨b⟩ := ctx
  cases h
  exact ⟨rfl, rfl⟩

/-- Claim C5, witness at a concrete input. -/
theorem C5_capability_gating_witness :
    (get_contents ⟨false⟩ ⟨.ok (.ok "p"), .ok (.ok "r")⟩).2 = [regularPasteCall] ∧
    (set_contents ⟨false⟩ "x" (.ok ())).2 =
      [⟨⟨ClipboardType.Regular, CopySeat.All, false, false, ServeRequests.Unlimited⟩,
        "x", MimeType.Text⟩] :=
  C5_capability_gating ⟨false⟩ ⟨.ok (.ok "p"), .ok (.ok "r")⟩ "x" (.ok ()) rfl

/-- Claim C6: whenever `get_contents` actually issues the regular paste
request and that request fails, the outcome is the empty string as a success
if the failure is one of the three empty-like conditions, and the propagated
paste error otherwise. -/
theorem C6_regular_empty_like (ctx : WaylandClipboardContext) (t : PasteTransport)
    (e : PasteError) (hr : t.regular = .error e)
    (ha : regularPasteCall ∈ (get_contents ctx t).2) :
    (get_contents ctx t).1 =
      if e.emptyLike then .ok "" else .error (.paste e) := by
  have hres : (get_contents ctx t).1 = get_contents_regular t := by
    obtain ⟨b⟩ := ctx
    cases b
    · rw [gc_false]
    · cases hp : t.primary with
      | ok reader =>
        cases reader with
        | ok s =>
          rw [gc_true_primary_ok_ok t s hp] at ha
          simp [primaryPasteCall, regularPasteCall] at ha
        | error io =>
          rw [gc_true_primary_ok_err t io hp] at ha
          simp [primaryPasteCall, regularPasteCall] at ha
      | error pe =>
        cases pe with
        | NoSeats =>
          rw [gc_true_primary_emptyLike t _ hp rfl] at ha; exact absurd ha (by decide)
        | ClipboardEmpty =>
          rw [gc_true_primary_emptyLike t _ hp rfl] at ha; exact absurd ha (by decide)
        | NoMimeType =>
          rw [gc_true_primary_emptyLike t _ hp rfl] at ha; exact absurd ha (by decide)
        | Other c => rw [gc_true_primary_other t c hp]
  rw [hres]
  cases e with
  | NoSeats => rw [gcr_emptyLike t _ hr rfl]; rfl
  | ClipboardEmpty => rw [gcr_emptyLike t _ hr rfl]; rfl
  | NoMimeType => rw [gcr_emptyLike t _ hr rfl]; rfl
  | Other c => rw [gcr_other t c hr]; rfl

/-- Claim C6, witness at a concrete input. -/
theorem C6_regular_empty_like_witness :
    (get_contents ⟨false⟩ ⟨.ok (.ok "p"), .error .NoMimeType⟩).1 =
      if PasteError.emptyLike .NoMimeType then .ok "" else .error (.paste .NoMimeType) :=
  C6_regular_empty_like ⟨false⟩ ⟨.ok (.ok "p"), .error .NoMimeType⟩ .NoMimeType rfl
    (by decide)

/-- Claim C7: an io error from draining a successfully obtained byte stream
(invalid UTF-8 or a read failure) always propagates: a primary-stream drain
error is returned at once with no fallback regular read, and a regular-stream
drain error is the overall outcome whenever the regular request was issued. -/
theorem C7_decode_propagation (ctx : WaylandClipboardContext) (t : PasteTransport)
    (e : IoError) :
    (ctx.supports_primary_selection = true → t.primary = .ok (.error e) →
      get_contents ctx t = (.error (.io e), [primaryPasteCall])) ∧
    (t.regular = .ok (.error e) → regularPasteCall ∈ (get_contents ctx t).2 →
      (get_contents ctx t).1 = .error (.io e)) := by
  constructor
  · intro hs hp
    obtain ⟨b⟩ := ctx
    cases hs
    exact gc_true_primary_ok_err t e hp
  · intro hr ha
    obtain ⟨b⟩ := ctx
    cases b
    · rw [gc_false]
      exact gcr_ok_err t e hr
    · cases hp : t.primary with
      | ok reader =>
        cases reader with
        | ok s =>
          rw [gc_true_primary_ok_ok t s hp] at ha
          simp [primaryPasteCall, regularPasteCall] at ha
        | error io =>
          rw [gc_true_primary_ok_err t io hp] at ha
          simp [primaryPasteCall, regularPasteCall] at ha
      | error pe =>
        cases pe with
        | NoSeats =>
          rw [gc_true_primary_emptyLike t _ hp rfl] at ha; exact absurd ha (by decide)
        | ClipboardEmpty =>
          rw [gc_true_primary_emptyLike t _ hp rfl] at ha; exact absurd ha (by decide)
        | NoMimeType =>
          rw [gc_true_primary_emptyLike t _ hp rfl] at ha; exact absurd ha (by decide)
        | Other c =>
          rw [gc_true_primary_other t c hp]
          exact gcr_ok_err t e hr

/-- Claim C7, witness: a primary stream that fails to decode at a concrete
input propagates the io error with no regular read. -/
theorem C7_decode_propagation_witness :
    get_contents ⟨true⟩ ⟨.ok (.error .invalidData), .ok (.ok "x")⟩ =
      (.error (.io .invalidData), [primaryPasteCall]) :=
  (C7_decode_propagation ⟨true⟩ ⟨.ok (.error .invalidData), .ok (.ok "x")⟩
    .invalidData).1 rfl rfl

/-- Claim C8: `set_contents` issues exactly one publish call carrying the
caller's payload unchanged, text MIME type, all-seat scope, newline trimming
off, non-foreground, unlimited serve requests, targeting both selections when
the capability flag is set and only the regular one otherwise; the transport's
outcome for that call is propagated. -/
theorem C8_publish (ctx : WaylandClipboardContext) (data : String)
    (copyRes : Except CopyError Unit) :
    set_contents ctx data copyRes =
      (copyRes.mapError ClipError.copyErr,
        [⟨⟨if ctx.supports_primary_selection then ClipboardType.Both else ClipboardType.Regular,
           CopySeat.All, false, false, ServeRequests.Unlimited⟩,
          data, MimeType.Text⟩]) := rfl

/-- Claim C9: `clear` issues exactly one transport clear call at all-seat
scope, targeting both selections when the capability flag is set and only the
regular one otherwise; the transport's outcome for that call is propagated. -/
theorem C9_clear_scope (ctx : WaylandClipboardContext)
    (clearRes : Except CopyError Unit) :
    clear ctx clearRes =
      (clearRes.mapError ClipError.copyErr,
        [⟨if ctx.supports_primary_selection then ClipboardType.Both else ClipboardType.Regular,
          CopySeat.All⟩]) := by
  obtain ⟨b⟩ := ctx
  cases b <;> rfl

/-- Claim C10: every error `get_contents` surfaces has its source in the
regular paste request or in draining one of the actually obtained byte
streams — a bare primary paste-transport error is never the returned error. -/
theorem C10_error_sources (ctx : WaylandClipboardContext) (t : PasteTransport)
    (err : ClipError) (h : (get_contents ctx t).1 = .error err) :
    errSource t err := by
  obtain ⟨b⟩ := ctx
  cases b
  · rw [gc_false] at h
    exact regular_error_source t err h
  · cases hp : t.primary with
    | ok reader =>
      cases reader with
      | ok s =>
        rw [gc_true_primary_ok_ok t s hp] at h
        exact absurd h (by simp)
      | error io =>
        rw [gc_true_primary_ok_err t io hp] at h
        cases h
        exact Or.inl hp
    | error pe =>
      cases pe with
      | NoSeats =>
        rw [gc_true_primary_emptyLike t _ hp rfl] at h
        exact absurd h (by simp)
      | ClipboardEmpty =>
        rw [gc_true_primary_emptyLike t _ hp rfl] at h
        exact absurd h (by simp)
      | NoMimeType =>
        rw [gc_true_primary_emptyLike t _ hp rfl] at h
        exact absurd h (by simp)
      | Other c =>
        rw [gc_true_primary_other t c hp] at h
        exact regular_error_source t err h

/-- Claim C10, witness: at a concrete input where both paste requests fail
with distinct non-empty-like errors, the surfaced error is sourced in the
regular paste request. -/
theorem C10_error_sources_witness :
    errSource ⟨.error (.Other 1), .error (.Other 2)⟩ (.paste (.Other 2)) :=
  C10_error_sources ⟨true⟩ ⟨.error (.Other 1), .error (.Other 2)⟩
    (.paste (.Other 2)) rfl

end CliClipboard
